import Mathlib

/-
  Verification of the 6502 CPU instruction core of this repository
  (src/src/cpu.rs), as a shallow embedding in Lean.

  Machine integers are modelled as Nat with explicit wraparound:
  a u8 value is a Nat below 256, a u16 value a Nat below 65536, and
  every wrapping operation of the source carries its `% 256` or
  `% 65536`.  Bit masks on bytes are kept as the source writes them
  (`|||`, `&&&`, shifts); `!x` on a u8 is `255 ^^^ x`.
  Memory (the bus the CPU reads and writes through) is a total
  function from addresses to bytes.
-/

set_option maxRecDepth 10000

namespace NesCpu

/-- Addressing modes, src/src/cpu.rs lines 11-22. -/
inductive AddressingMode where
  | Immediate
  | ZeroPage
  | ZeroPage_X
  | ZeroPage_Y
  | Absolute
  | Absolute_X
  | Absolute_Y
  | Indirect_X
  | Indirect_Y
  | NoneAddressing
deriving DecidableEq

/-- Status-flag codes, src/src/cpu.rs lines 24-33. -/
inductive FlgCodes where
  | CARRY
  | ZERO
  | INTERRUPT_DISABLE
  | DECIMAL_MODE
  | BREAK
  | RESERVED
  | OVERFLOW
  | NEGATIV

/-- Bit position of each status flag inside the status byte
(the comments of src/src/cpu.rs lines 24-33 and the shift amounts of
`get_flg` / `set_flg`, lines 424-461). -/
def FlgCodes.bit : FlgCodes → Nat
  | .CARRY => 0
  | .ZERO => 1
  | .INTERRUPT_DISABLE => 2
  | .DECIMAL_MODE => 3
  | .BREAK => 4
  | .RESERVED => 5
  | .OVERFLOW => 6
  | .NEGATIV => 7

/-- Register selector, src/src/cpu.rs lines 35-39. -/
inductive REGISTER where
  | REGISTER_A
  | REGISTER_X
  | REGISTER_Y

/-- CPU state, src/src/cpu.rs lines 80-88.  The `Bus` field is
modelled as the byte memory the CPU reads and writes through. -/
structure CPUS where
  register_a : Nat
  register_x : Nat
  register_y : Nat
  status : Nat
  program_counter : Nat
  stack_pointer : Nat
  mem : Nat → Nat

/-- Source `mem_write` of the `Mem` trait: pointwise update of the memory. -/
def memWrite (st : CPUS) (addr data : Nat) : CPUS :=
  { st with mem := fun a => if a = addr then data else st.mem a }

/-- Source `mem_read_u16`, src/src/cpu.rs lines 46-50: little-endian word,
low byte at `pos`, high byte at `pos + 1` (u16 address arithmetic). -/
def mem_read_u16 (st : CPUS) (pos : Nat) : Nat :=
  let lo := st.mem pos
  let hi := st.mem ((pos + 1) % 65536)
  (hi <<< 8) ||| lo

/-- Source `get_flg`, src/src/cpu.rs lines 424-435: `self.status >> n & 1`,
the eight match arms factored through the flag's bit position. -/
def getFlg (st : CPUS) (f : FlgCodes) : Nat :=
  st.status >>> f.bit &&& 1

/-- Status byte after `set_flg` for the flag at bit `n`,
src/src/cpu.rs lines 437-461: `status |= 1 << n` when the value is 1,
`status &= !(1 << n)` otherwise (`!x` on a u8 is `255 ^^^ x`). -/
def setFlgBit (n status value : Nat) : Nat :=
  if value = 1 then status ||| (1 <<< n) else status &&& (255 ^^^ (1 <<< n))

/-- Source `set_flg`, src/src/cpu.rs lines 437-461, the eight match arms
factored through the flag's bit position. -/
def setFlg (st : CPUS) (f : FlgCodes) (value : Nat) : CPUS :=
  { st with status := setFlgBit f.bit st.status value }

/-- Source `update_zero_and_negative_flags`, src/src/cpu.rs lines 389-401. -/
def update_zero_and_negative_flags (st : CPUS) (result : Nat) : CPUS :=
  let s1 := if result = 0 then st.status ||| 0b00000010 else st.status &&& 0b11111101
  let s2 := if result &&& 0b10000000 ≠ 0 then s1 ||| 0b10000000 else s1 &&& 0b01111111
  { st with status := s2 }

/-- Source `adc`, src/src/cpu.rs lines 103-122, as a function of the operand
byte `value` (the dispatch embedding supplies the address resolution
and memory read). -/
def adc (st : CPUS) (value : Nat) : CPUS :=
  let sum := st.register_a + value + getFlg st FlgCodes.CARRY
  let st1 := setFlg st FlgCodes.CARRY (if 0xFF < sum then 1 else 0)
  let result := sum % 256
  let st2 := setFlg st1 FlgCodes.OVERFLOW
    (if value &&& 0x80 = st1.register_a &&& 0x80 ∧ ¬ (result &&& 0x80 = value &&& 0x80)
     then 1 else 0)
  let st3 := { st2 with register_a := result }
  update_zero_and_negative_flags st3 st3.register_a

/-- The operand transformation of `sbc`, src/src/cpu.rs line 279:
`((m as i8).wrapping_neg().wrapping_sub(1)) as u8`.  Two's-complement
negation of the byte is `(256 - m) % 256`; the wrapping decrement is
`(x + 255) % 256`. -/
def sbcOperand (m : Nat) : Nat :=
  ((256 - m % 256) % 256 + 255) % 256

/-- Source `sbc`, src/src/cpu.rs lines 277-297, as a function of the operand
byte `m` read from memory; the body after the operand transformation
repeats the `adc` body verbatim. -/
def sbc (st : CPUS) (m : Nat) : CPUS :=
  let value := sbcOperand m
  let sum := st.register_a + value + getFlg st FlgCodes.CARRY
  let st1 := setFlg st FlgCodes.CARRY (if 0xFF < sum then 1 else 0)
  let result := sum % 256
  let st2 := setFlg st1 FlgCodes.OVERFLOW
    (if value &&& 0x80 = st1.register_a &&& 0x80 ∧ ¬ (result &&& 0x80 = value &&& 0x80)
     then 1 else 0)
  let st3 := { st2 with register_a := result }
  update_zero_and_negative_flags st3 st3.register_a

/-- Source `bit`, src/src/cpu.rs lines 149-158, as a function of the operand
byte `value`.  Note the source takes all three flags from `result`,
the AND of accumulator and operand. -/
def bit (st : CPUS) (value : Nat) : CPUS :=
  let result := st.register_a &&& value
  let st1 := setFlg st FlgCodes.ZERO (if result = 0 then 1 else 0)
  let st2 := setFlg st1 FlgCodes.OVERFLOW (result >>> 6 &&& 1)
  setFlg st2 FlgCodes.NEGATIV (result >>> 7 &&& 1)

/-- Source `lsr_accumulator`, src/src/cpu.rs lines 220-226: carry from
`value & 1` (bit 0). -/
def lsr_accumulator (st : CPUS) : CPUS :=
  let value := st.register_a
  let st1 := setFlg st FlgCodes.CARRY (if value &&& 1 = 0 then 0 else 1)
  let st2 := { st1 with register_a := value >>> 1 }
  update_zero_and_negative_flags st2 st2.register_a

/-- Source `lsr` (memory form), src/src/cpu.rs lines 228-236: carry from
`value >> 7` (bit 7). -/
def lsr (st : CPUS) (addr : Nat) : CPUS :=
  let value := st.mem addr
  let st1 := setFlg st FlgCodes.CARRY (if value >>> 7 = 0 then 0 else 1)
  let st2 := memWrite st1 addr (value >>> 1)
  update_zero_and_negative_flags st2 (value >>> 1)

/-- Source `ror_accumulator`, src/src/cpu.rs lines 257-264: carry from
`value >> 7` (bit 7); the previous carry enters at bit 7. -/
def ror_accumulator (st : CPUS) : CPUS :=
  let value := st.register_a
  let old_carry := getFlg st FlgCodes.CARRY
  let st1 := setFlg st FlgCodes.CARRY (if value >>> 7 = 0 then 0 else 1)
  let st2 := { st1 with register_a := (value >>> 1) ||| (old_carry <<< 7) }
  update_zero_and_negative_flags st2 st2.register_a

/-- Source `ror` (memory form), src/src/cpu.rs lines 266-275: carry from
`value >> 7` (bit 7); the previous carry enters at bit 7. -/
def ror (st : CPUS) (addr : Nat) : CPUS :=
  let value := st.mem addr
  let old_carry := getFlg st FlgCodes.CARRY
  let st1 := setFlg st FlgCodes.CARRY (if value >>> 7 = 0 then 0 else 1)
  let st2 := memWrite st1 addr ((value >>> 1) ||| (old_carry <<< 7))
  update_zero_and_negative_flags st2 ((value >>> 1) ||| (old_carry <<< 7))

/-! ### Bit-level helper lemmas about the flag machinery -/

theorem div_and_one (x k : Nat) : x >>> k &&& 1 = (x.testBit k).toNat := by
  rw [Nat.and_one_is_mod, Nat.shiftRight_eq_div_pow, Nat.testBit_to_div_mod]
  rcases Nat.mod_two_eq_zero_or_one (x / 2 ^ k) with h | h <;> simp [h]

theorem getFlg_eq_testBit (st : CPUS) (f : FlgCodes) :
    getFlg st f = (st.status.testBit f.bit).toNat :=
  div_and_one st.status f.bit

theorem FlgCodes.bit_lt (f : FlgCodes) : f.bit < 8 := by
  cases f <;> simp [FlgCodes.bit]

theorem maskBit_self : ∀ n < 8, (((255:Nat) ^^^ (1 <<< n))).testBit n = false := by decide

theorem maskBit_ne :
    ∀ n < 8, ∀ j < 8, j ≠ n → (((255:Nat) ^^^ (1 <<< n))).testBit j = true := by decide

theorem testBit_setFlgBit_self (n s v : Nat) (hn : n < 8) :
    (setFlgBit n s v).testBit n = decide (v = 1) := by
  unfold setFlgBit
  split
  · next h =>
      simp [h, Nat.testBit_lor, Nat.one_shiftLeft, Nat.testBit_two_pow_self]
  · next h =>
      simp [h, Nat.testBit_land, maskBit_self n hn]

theorem testBit_setFlgBit_other (n s v j : Nat) (hn : n < 8) (hj : j < 8) (hne : j ≠ n) :
    (setFlgBit n s v).testBit j = s.testBit j := by
  unfold setFlgBit
  split
  · rw [Nat.testBit_lor, Nat.one_shiftLeft, Nat.testBit_two_pow_of_ne (Ne.symm hne),
      Bool.or_false]
  · rw [Nat.testBit_land, maskBit_ne n hn j hj hne, Bool.and_true]

theorem updZNmask1 :
    ∀ j < 8, j ≠ 1 → ((253:Nat).testBit j = true ∧ (2:Nat).testBit j = false) := by decide

theorem updZNmask7 :
    ∀ j < 8, j ≠ 7 → ((127:Nat).testBit j = true ∧ (128:Nat).testBit j = false) := by decide

theorem testBit_updZN_other (st : CPUS) (r j : Nat) (hj : j < 8) (h1 : j ≠ 1) (h7 : j ≠ 7) :
    (update_zero_and_negative_flags st r).status.testBit j = st.status.testBit j := by
  have m1 := updZNmask1 j hj h1
  have m7 := updZNmask7 j hj h7
  unfold update_zero_and_negative_flags
  dsimp only
  split <;> split <;>
    simp [Nat.testBit_lor, Nat.testBit_land, m1.1, m1.2, m7.1, m7.2]

theorem testBit_updZN_one (st : CPUS) (r : Nat) :
    (update_zero_and_negative_flags st r).status.testBit 1 = decide (r = 0) := by
  unfold update_zero_and_negative_flags
  dsimp only
  split <;> split <;>
    simp_all [Nat.testBit_lor, Nat.testBit_land,
      show (2:Nat).testBit 1 = true from by decide,
      show (253:Nat).testBit 1 = false from by decide,
      show (128:Nat).testBit 1 = false from by decide,
      show (127:Nat).testBit 1 = true from by decide]

theorem testBit_updZN_seven (st : CPUS) (r : Nat) :
    (update_zero_and_negative_flags st r).status.testBit 7 = decide (¬ (r &&& 128 = 0)) := by
  unfold update_zero_and_negative_flags
  dsimp only
  split <;> split <;>
    simp_all [Nat.testBit_lor, Nat.testBit_land,
      show (128:Nat).testBit 7 = true from by decide,
      show (127:Nat).testBit 7 = false from by decide]

theorem and128_eq_iff (x y : Nat) :
    x &&& 0x80 = y &&& 0x80 ↔ x.testBit 7 = y.testBit 7 := by
  rw [show (0x80:Nat) = 2 ^ 7 from by norm_num, Nat.and_two_pow, Nat.and_two_pow]
  cases hx : x.testBit 7 <;> cases hy : y.testBit 7 <;> simp

/-- The carry and overflow bits of the status byte produced by `adc`,
read back through `get_flg`. -/
theorem adc_status_bits (st : CPUS) (value : Nat) :
    getFlg (adc st value) FlgCodes.CARRY =
      (if 0xFF < st.register_a + value + getFlg st FlgCodes.CARRY then 1 else 0) ∧
    getFlg (adc st value) FlgCodes.OVERFLOW =
      (if value &&& 0x80 = st.register_a &&& 0x80 ∧
          ¬ ((st.register_a + value + getFlg st FlgCodes.CARRY) % 256 &&& 0x80 =
              value &&& 0x80)
       then 1 else 0) := by
  constructor
  · rw [getFlg_eq_testBit]
    have h1 : (adc st value).status.testBit FlgCodes.CARRY.bit =
        (setFlgBit 6
          (setFlgBit 0 st.status
            (if 0xFF < st.register_a + value + getFlg st FlgCodes.CARRY then 1 else 0))
          (if value &&& 0x80 = st.register_a &&& 0x80 ∧
              ¬ ((st.register_a + value + getFlg st FlgCodes.CARRY) % 256 &&& 0x80 =
                  value &&& 0x80)
           then 1 else 0)).testBit 0 := by
      exact testBit_updZN_other _ _ 0 (by norm_num) (by norm_num) (by norm_num)
    rw [h1, testBit_setFlgBit_other 6 _ _ 0 (by norm_num) (by norm_num) (by norm_num),
      testBit_setFlgBit_self 0 _ _ (by norm_num)]
    split <;> simp
  · rw [getFlg_eq_testBit]
    have h1 : (adc st value).status.testBit FlgCodes.OVERFLOW.bit =
        (setFlgBit 6
          (setFlgBit 0 st.status
            (if 0xFF < st.register_a + value + getFlg st FlgCodes.CARRY then 1 else 0))
          (if value &&& 0x80 = st.register_a &&& 0x80 ∧
              ¬ ((st.register_a + value + getFlg st FlgCodes.CARRY) % 256 &&& 0x80 =
                  value &&& 0x80)
           then 1 else 0)).testBit 6 := by
      exact testBit_updZN_other _ _ 6 (by norm_num) (by norm_num) (by norm_num)
    rw [h1, testBit_setFlgBit_self 6 _ _ (by norm_num)]
    split <;> simp

/-- C1: add-with-carry leaves the accumulator at `(a + m + c) % 256`,
sets carry iff `a + m + c > 255`, and sets overflow iff the operand
and the accumulator agree on bit 7 while the result differs from the
operand on bit 7 (src/src/cpu.rs lines 103-122). -/
theorem adc_add_with_carry (st : CPUS) (m : Nat) :
    (adc st m).register_a = (st.register_a + m + getFlg st FlgCodes.CARRY) % 256 ∧
    (getFlg (adc st m) FlgCodes.CARRY = 1 ↔
      255 < st.register_a + m + getFlg st FlgCodes.CARRY) ∧
    (getFlg (adc st m) FlgCodes.OVERFLOW = 1 ↔
      (m.testBit 7 = st.register_a.testBit 7 ∧
        ¬ (((st.register_a + m + getFlg st FlgCodes.CARRY) % 256).testBit 7 =
            m.testBit 7))) := by
  refine ⟨rfl, ?_, ?_⟩
  · rw [(adc_status_bits st m).1]
    split
    · next h => simpa using h
    · next h => simpa using h
  · rw [(adc_status_bits st m).2]
    have hiff :
        (m &&& 0x80 = st.register_a &&& 0x80 ∧
          ¬ ((st.register_a + m + getFlg st FlgCodes.CARRY) % 256 &&& 0x80 = m &&& 0x80)) ↔
        (m.testBit 7 = st.register_a.testBit 7 ∧
          ¬ (((st.register_a + m + getFlg st FlgCodes.CARRY) % 256).testBit 7 =
              m.testBit 7)) := by
      rw [and128_eq_iff, and128_eq_iff]
    split
    · next h => simpa using hiff.mp h
    · next h =>
        simp only [show (0:Nat) ≠ 1 from by decide, false_iff]
        exact fun hc => h (hiff.mpr hc)

/-- C2: subtract-with-carry is add-with-carry against the operand
transformed to `-m - 1` in 8-bit two's-complement arithmetic; the
whole state (accumulator and every flag) comes out equal
(src/src/cpu.rs lines 277-297 against lines 103-122). -/
theorem sbc_eq_adc_twos_complement (st : CPUS) (m : Nat) (hm : m < 256) :
    sbc st m = adc st ((-(m:Int) - 1) % 256).toNat := by
  have h1 : ((-(m:Int) - 1) % 256).toNat = 255 - m := by omega
  have h2 : sbcOperand m = 255 - m := by
    unfold sbcOperand
    omega
  rw [h1]
  unfold sbc adc
  rw [h2]

/-- Concrete state used to settle C2: the accumulator and carry of the
repository test for subtract without carry or overflow. -/
def exC2 : CPUS :=
  { register_a := 0x50, register_x := 0, register_y := 0, status := 0,
    program_counter := 0x8000, stack_pointer := 0xFD, mem := fun _ => 0 }

theorem sbc_eq_adc_twos_complement_witness :
    sbc exC2 0xf0 = adc exC2 ((-((0xf0:Nat):Int) - 1) % 256).toNat :=
  sbc_eq_adc_twos_complement exC2 0xf0 (by decide)

/-- Concrete state used to settle C3: accumulator 0x01, flags clear. -/
def exC3 : CPUS :=
  { register_a := 0x01, register_x := 0, register_y := 0, status := 0,
    program_counter := 0x8000, stack_pointer := 0xFD, mem := fun _ => 0 }

/-- C3 counterexample: with accumulator 0x01 and operand 0xC0 the
claim asks for overflow = bit 6 of the operand = 1 and negative =
bit 7 of the operand = 1, but `bit` leaves both flags clear because it
reads them from the AND result (which is 0 here). -/
theorem bit_flags_from_operand_false :
    ¬ (getFlg (bit exC3 0xC0) FlgCodes.OVERFLOW = (Nat.testBit 0xC0 6).toNat ∧
       getFlg (bit exC3 0xC0) FlgCodes.NEGATIV = (Nat.testBit 0xC0 7).toNat) := by
  decide

/-- C3 (amended): the bit test sets the zero flag iff
`accumulator AND operand = 0`, and copies bits 6 and 7 of the AND
result (not of the operand) into the overflow and negative flags
(src/src/cpu.rs lines 149-158). -/
theorem bit_flags (st : CPUS) (value : Nat) :
    (getFlg (bit st value) FlgCodes.ZERO = 1 ↔ st.register_a &&& value = 0) ∧
    getFlg (bit st value) FlgCodes.OVERFLOW =
      ((st.register_a &&& value).testBit 6).toNat ∧
    getFlg (bit st value) FlgCodes.NEGATIV =
      ((st.register_a &&& value).testBit 7).toNat := by
  refine ⟨?_, ?_, ?_⟩
  · rw [getFlg_eq_testBit]
    have h1 : (bit st value).status.testBit FlgCodes.ZERO.bit =
        (setFlgBit 1 st.status
          (if st.register_a &&& value = 0 then 1 else 0)).testBit 1 := by
      exact Eq.trans
        (testBit_setFlgBit_other 7 _ _ 1 (by norm_num) (by norm_num) (by norm_num))
        (testBit_setFlgBit_other 6 _ _ 1 (by norm_num) (by norm_num) (by norm_num))
    rw [h1, testBit_setFlgBit_self 1 _ _ (by norm_num)]
    split <;> simp_all
  · rw [getFlg_eq_testBit]
    have h1 : (bit st value).status.testBit FlgCodes.OVERFLOW.bit =
        (setFlgBit 6 (setFlgBit 1 st.status
            (if st.register_a &&& value = 0 then 1 else 0))
          ((st.register_a &&& value) >>> 6 &&& 1)).testBit 6 := by
      exact testBit_setFlgBit_other 7 _ _ 6 (by norm_num) (by norm_num) (by norm_num)
    rw [h1, testBit_setFlgBit_self 6 _ _ (by norm_num), div_and_one]
    cases (st.register_a &&& value).testBit 6 <;> simp
  · rw [getFlg_eq_testBit]
    have h1 : (bit st value).status.testBit FlgCodes.NEGATIV.bit =
        decide ((st.register_a &&& value) >>> 7 &&& 1 = 1) := by
      exact testBit_setFlgBit_self 7 _ _ (by norm_num)
    rw [h1, div_and_one]
    cases (st.register_a &&& value).testBit 7 <;> simp

/-- Concrete state used to settle C4: accumulator 0x01, carry clear,
memory holding 0x01 at 0x10. -/
def exC4 : CPUS :=
  { register_a := 0x01, register_x := 0, register_y := 0, status := 0,
    program_counter := 0x8000, stack_pointer := 0xFD,
    mem := fun a => if a = 0x10 then 0x01 else 0 }

/-- C4: an operand 0x01 has bit 0 set, so the claim requires the carry
flag to come out 1 on every right shift and rotate.  The memory form
of `lsr` and both forms of `ror` leave carry 0 (they take it from
bit 7), while `lsr_accumulator` obeys the claim and yields carry 1 —
the same instruction is internally inconsistent between its two
forms. -/
theorem right_shift_carry_divergence :
    exC4.mem 0x10 &&& 1 = 1 ∧
    exC4.register_a &&& 1 = 1 ∧
    getFlg (lsr exC4 0x10) FlgCodes.CARRY = 0 ∧
    getFlg (ror exC4 0x10) FlgCodes.CARRY = 0 ∧
    getFlg (ror_accumulator exC4) FlgCodes.CARRY = 0 ∧
    getFlg (lsr_accumulator exC4) FlgCodes.CARRY = 1 := by
  decide

/-! ### Stack engine -/

/-- Source `stack_push`, src/src/cpu.rs lines 354-357: write at
`0x0100 + stack_pointer`, then decrement the pointer with wraparound
(`wrapping_sub(1)` on a u8 is `(sp + 255) % 256`). -/
def stack_push (st : CPUS) (data : Nat) : CPUS :=
  let st1 := memWrite st (0x0100 + st.stack_pointer) data
  { st1 with stack_pointer := (st1.stack_pointer + 255) % 256 }

/-- Source `stack_pop`, src/src/cpu.rs lines 359-362: increment the pointer
with wraparound, then read at `0x0100 + stack_pointer`. -/
def stack_pop (st : CPUS) : CPUS × Nat :=
  let sp := (st.stack_pointer + 1) % 256
  ({ st with stack_pointer := sp }, st.mem (0x0100 + sp))

/-- Source `stack_push_u16`, src/src/cpu.rs lines 364-369: push the high
byte, then the low byte. -/
def stack_push_u16 (st : CPUS) (data : Nat) : CPUS :=
  let hi := (data >>> 8) % 256
  let lo := data &&& 0xff
  stack_push (stack_push st hi) lo

/-- Source `stack_pop_u16`, src/src/cpu.rs lines 371-376: pop the low byte,
then the high byte, and reassemble `hi << 8 | lo`. -/
def stack_pop_u16 (st : CPUS) : CPUS × Nat :=
  let p1 := stack_pop st
  let p2 := stack_pop p1.1
  (p2.1, (p2.2 <<< 8) ||| p1.2)

/-- Disjoint-bit recomposition: or-ing a byte into a value shifted
past it is plain addition. -/
theorem lor_disjoint (h l : Nat) (hl : l < 256) : (h <<< 8) ||| l = h * 256 + l := by
  apply Nat.eq_of_testBit_eq
  intro i
  rw [Nat.testBit_lor, Nat.testBit_shiftLeft]
  rcases Nat.lt_or_ge i 8 with hi | hi
  · have hdec : decide (i ≥ 8) = false := by
      simp only [decide_eq_false_iff_not]
      omega
    rw [hdec, Bool.false_and, Bool.false_or]
    rw [Nat.testBit_to_div_mod, Nat.testBit_to_div_mod]
    have hpow : (2:Nat) ^ i * (2 ^ (7 - i) * 2) = 256 := by
      rw [show (256:Nat) = 2 ^ 8 from by norm_num, ← Nat.pow_succ, ← Nat.pow_add]
      congr 1
      omega
    have hsum : h * 256 + l = 2 ^ i * (2 ^ (7 - i) * h * 2) + l := by
      rw [← hpow]
      ring
    rw [hsum, Nat.mul_add_div (Nat.two_pow_pos i)]
    rw [show 2 ^ (7 - i) * h * 2 + l / 2 ^ i = l / 2 ^ i + 2 ^ (7 - i) * h * 2 from by ring,
      Nat.add_mul_mod_self_right]
  · have hdec : decide (i ≥ 8) = true := by simp [hi]
    rw [hdec, Bool.true_and]
    have h256 : (256:Nat) ≤ 2 ^ i := by
      calc (256:Nat) = 2 ^ 8 := by norm_num
        _ ≤ 2 ^ i := Nat.pow_le_pow_right (by norm_num) hi
    have hlow : Nat.testBit l i = false :=
      Nat.testBit_eq_false_of_lt (lt_of_lt_of_le hl h256)
    rw [hlow, Bool.or_false]
    rw [Nat.testBit_to_div_mod, Nat.testBit_to_div_mod]
    have hdiv : (h * 256 + l) / 2 ^ i = h / 2 ^ (i - 8) := by
      have hp : (2:Nat) ^ i = 256 * 2 ^ (i - 8) := by
        rw [show (256:Nat) = 2 ^ 8 from by norm_num, ← Nat.pow_add]
        congr 1
        omega
      rw [hp, ← Nat.div_div_eq_div_mul]
      congr 1
      rw [Nat.mul_comm h 256, Nat.mul_add_div (by norm_num : (0:Nat) < 256)]
      rw [Nat.div_eq_of_lt hl, Nat.add_zero]
    rw [hdiv]

/-- Splitting a 16-bit value into its two bytes and reassembling them
gives the value back. -/
theorem recompose16 (d : Nat) (hd : d < 65536) :
    (((d >>> 8) % 256) <<< 8) ||| (d &&& 0xff) = d := by
  have h1 : d >>> 8 = d / 256 := Nat.shiftRight_eq_div_pow d 8
  have h2 : d &&& 0xff = d % 256 := by
    have h3 := Nat.and_pow_two_sub_one_eq_mod d 8
    norm_num at h3
    exact h3
  rw [h1, h2, lor_disjoint _ _ (Nat.mod_lt _ (by norm_num))]
  omega

/-- C5: pushing a 16-bit value with `stack_push_u16` and popping with
`stack_pop_u16` returns exactly the value and restores the stack
pointer, for every initial pointer below 256 (including the wrap at
the page boundary) and every value below 65536
(src/src/cpu.rs lines 354-376). -/
theorem stack_u16_roundtrip (st : CPUS) (d : Nat) (hd : d < 65536)
    (hsp : st.stack_pointer < 256) :
    (stack_pop_u16 (stack_push_u16 st d)).2 = d ∧
    (stack_pop_u16 (stack_push_u16 st d)).1.stack_pointer = st.stack_pointer := by
  have e1 : ((((st.stack_pointer + 255) % 256 + 255) % 256) + 1) % 256 =
      (st.stack_pointer + 255) % 256 := by omega
  have e2 : ((st.stack_pointer + 255) % 256 + 1) % 256 = st.stack_pointer := by omega
  have e3 : ¬ (0x0100 + st.stack_pointer = 0x0100 + (st.stack_pointer + 255) % 256) := by
    omega
  simp only [stack_pop_u16, stack_pop, stack_push_u16, stack_push, memWrite, e1, e2]
  constructor
  · simp only [if_pos rfl, if_neg e3, if_pos rfl]
    exact recompose16 d hd
  · trivial

/-- Concrete state used to settle C5: stack pointer 0, so both pushes
wrap around the page boundary. -/
def exC5 : CPUS :=
  { register_a := 0, register_x := 0, register_y := 0, status := 0,
    program_counter := 0x8000, stack_pointer := 0, mem := fun _ => 0 }

theorem stack_u16_roundtrip_witness :
    (stack_pop_u16 (stack_push_u16 exC5 0x1234)).2 = 0x1234 ∧
    (stack_pop_u16 (stack_push_u16 exC5 0x1234)).1.stack_pointer = exC5.stack_pointer :=
  stack_u16_roundtrip exC5 0x1234 (by decide) (by decide)

/-! ### Branching -/

/-- Source `branch`, src/src/cpu.rs lines 378-387: when the condition holds,
read the displacement byte at the program counter, sign-extend it
(`jump as i8 ... as u16` makes bytes at or above 128 into
`jump + 0xFF00`) and add it plus one to the program counter with
16-bit wraparound. -/
def branch (st : CPUS) (condition : Bool) : CPUS :=
  if condition then
    let jump := st.mem st.program_counter
    let jumpExt := if jump < 128 then jump else jump + 0xFF00
    { st with program_counter :=
        ((st.program_counter + 1) % 65536 + jumpExt) % 65536 }
  else st

/-- C6: a taken branch sets the program counter to
`program_counter + 1 + signed displacement` (mod 65536), i.e. relative
to the address just past the displacement byte; an untaken branch
leaves the state unchanged.  With displacement byte 0xFC (= -4) read
at `program_counter = A + 1` (the byte after the opcode at `A`), the
new counter is `A + 2 + (-4)` (src/src/cpu.rs lines 378-387). -/
theorem branch_relative (st : CPUS) (cond : Bool) :
    (cond = true →
      ((branch st cond).program_counter : Int) =
        ((st.program_counter : Int) + 1 +
          (if st.mem st.program_counter < 128 then (st.mem st.program_counter : Int)
           else (st.mem st.program_counter : Int) - 256)) % 65536) ∧
    (cond = false → branch st cond = st) ∧
    (st.mem st.program_counter = 0xFC → cond = true →
      ((branch st cond).program_counter : Int) =
        ((st.program_counter : Int) + 1 + (-4)) % 65536) := by
  have hred : (branch st true).program_counter =
      ((st.program_counter + 1) % 65536 +
        (if st.mem st.program_counter < 128 then st.mem st.program_counter
         else st.mem st.program_counter + 0xFF00)) % 65536 := rfl
  refine ⟨?_, ?_, ?_⟩
  · intro hc
    subst hc
    rw [hred]
    by_cases hj : st.mem st.program_counter < 128
    · rw [if_pos hj, if_pos hj]
      omega
    · rw [if_neg hj, if_neg hj]
      omega
  · intro hc
    subst hc
    rfl
  · intro hv hc
    subst hc
    rw [hred, hv]
    norm_num
    omega

/-! ### Jump indirect -/

/-- Dispatch arm for opcode 0x6C (JMP indirect), src/src/cpu.rs
lines 597-609.  On a 16-bit value, `x & 0x00FF` is `x % 256` and
`x & 0xFF00` is `x - x % 256`. -/
def jmp_indirect (st : CPUS) : CPUS :=
  let mem_address := mem_read_u16 st st.program_counter
  let indirect_ref :=
    if mem_address % 256 = 0xFF then
      let lo := st.mem mem_address
      let hi := st.mem (mem_address - mem_address % 256)
      (hi <<< 8) ||| lo
    else mem_read_u16 st mem_address
  { st with program_counter := indirect_ref }

/-- C7: when the pointer's low byte is 0xFF, jump-indirect reads the
low target byte at the pointer and the high byte at the start of the
pointer's own 256-byte page (`page * 256`), not the next page; for any
other pointer it reads a normal little-endian word; the program
counter becomes the word read (src/src/cpu.rs lines 597-609). -/
theorem jmp_indirect_page_wrap (st : CPUS) (hwf : ∀ a, st.mem a < 256) :
    (mem_read_u16 st st.program_counter % 256 = 0xFF →
      (jmp_indirect st).program_counter =
        st.mem (mem_read_u16 st st.program_counter) +
          256 * st.mem (mem_read_u16 st st.program_counter / 256 * 256)) ∧
    (¬ (mem_read_u16 st st.program_counter % 256 = 0xFF) →
      (jmp_indirect st).program_counter =
        st.mem (mem_read_u16 st st.program_counter) +
          256 * st.mem (mem_read_u16 st st.program_counter + 1)) := by
  have hmaddr : mem_read_u16 st st.program_counter < 65536 := by
    unfold mem_read_u16
    dsimp only
    rw [lor_disjoint _ _ (hwf st.program_counter)]
    have h1 := hwf ((st.program_counter + 1) % 65536)
    have h2 := hwf st.program_counter
    omega
  constructor
  · intro h
    unfold jmp_indirect
    simp only [if_pos h]
    rw [lor_disjoint _ _ (hwf (mem_read_u16 st st.program_counter))]
    have harith : mem_read_u16 st st.program_counter -
        mem_read_u16 st st.program_counter % 256 =
        mem_read_u16 st st.program_counter / 256 * 256 := by omega
    rw [harith]
    ring
  · intro h
    unfold jmp_indirect
    dsimp only
    generalize hM : mem_read_u16 st st.program_counter = M at h hmaddr ⊢
    simp only [if_neg h]
    unfold mem_read_u16
    dsimp only
    rw [lor_disjoint _ _ (hwf M)]
    have hwrap : (M + 1) % 65536 = M + 1 := by omega
    rw [hwrap]
    ring

/-- Concrete state used to settle C7: at the program counter the
little-endian pointer 0x30FF (low byte 0xFF); the target low byte 0x34
sits at 0x30FF and the target high byte 0x12 at the start of the same
page, 0x3000. -/
def exC7 : CPUS :=
  { register_a := 0, register_x := 0, register_y := 0, status := 0,
    program_counter := 0, stack_pointer := 0xFD,
    mem := fun a =>
      if a = 0 then 0xFF else if a = 1 then 0x30 else
      if a = 0x30FF then 0x34 else if a = 0x3000 then 0x12 else 0 }

theorem jmp_indirect_page_wrap_witness :
    (jmp_indirect exC7).program_counter =
      exC7.mem (mem_read_u16 exC7 exC7.program_counter) +
        256 * exC7.mem (mem_read_u16 exC7 exC7.program_counter / 256 * 256) :=
  (jmp_indirect_page_wrap exC7 (fun a => by
    show (if a = 0 then 0xFF else if a = 1 then 0x30 else
      if a = 0x30FF then 0x34 else if a = 0x3000 then 0x12 else 0) < 256
    split <;> first | decide | (split <;> first | decide |
      (split <;> first | decide | (split <;> decide))))).1 (by decide)

/-! ### Reset -/

/-- Source `reset`, src/src/cpu.rs lines 403-409: clear the accumulator and
the X register, restore the status byte to 0b100100, and reload the
program counter from the vector at 0xFFFC.  The Y register and the
stack pointer are not touched. -/
def reset (st : CPUS) : CPUS :=
  let st1 := { st with register_a := 0, register_x := 0, status := 0b100100 }
  { st1 with program_counter := mem_read_u16 st1 0xFFFC }

/-- Concrete state used to settle C8: Y register 7. -/
def exC8 : CPUS :=
  { register_a := 3, register_x := 4, register_y := 7, status := 0,
    program_counter := 0x1234, stack_pointer := 0x40, mem := fun _ => 0 }

/-- C8 counterexample: `reset` does not clear the Y index register —
from a state with Y = 7 it leaves Y = 7, against the claim that both
index registers are cleared to 0. -/
theorem reset_clears_y_false : ¬ ((reset exC8).register_y = 0) := by decide

/-- C8 (amended): after `reset` the program counter holds the
little-endian word at 0xFFFC, the accumulator and the X register are
cleared, the status byte is 0b100100, and the Y register and the
stack pointer keep their previous values (src/src/cpu.rs
lines 403-409). -/
theorem reset_state (st : CPUS) (hwf : ∀ a, st.mem a < 256) :
    (reset st).program_counter = st.mem 0xFFFC + 256 * st.mem 0xFFFD ∧
    (reset st).register_a = 0 ∧
    (reset st).register_x = 0 ∧
    (reset st).register_y = st.register_y ∧
    (reset st).stack_pointer = st.stack_pointer ∧
    (reset st).status = 0b100100 := by
  refine ⟨?_, rfl, rfl, rfl, rfl, rfl⟩
  show mem_read_u16 st 0xFFFC = _
  unfold mem_read_u16
  dsimp only
  rw [lor_disjoint _ _ (hwf 0xFFFC)]
  norm_num
  ring

theorem reset_state_witness :
    (reset exC8).program_counter = exC8.mem 0xFFFC + 256 * exC8.mem 0xFFFD ∧
    (reset exC8).register_a = 0 ∧
    (reset exC8).register_x = 0 ∧
    (reset exC8).register_y = exC8.register_y ∧
    (reset exC8).stack_pointer = exC8.stack_pointer ∧
    (reset exC8).status = 0b100100 :=
  reset_state exC8 (fun a => by
    show (0:Nat) < 256
    decide)

/-! ### Pull processor status -/

/-- Dispatch arm for opcode 0x28 (PLP), src/src/cpu.rs lines 584-589:
pop a byte, install it as the status register, then run the shared
zero/negative update on the status register itself. -/
def plp (st : CPUS) : CPUS :=
  let p := stack_pop st
  let st1 := { p.1 with status := p.2 }
  update_zero_and_negative_flags st1 st1.status

theorem plp_status_byte : ∀ v < 256,
    (if ¬ (v &&& 128 = 0) then (if v = 0 then v ||| 2 else v &&& 253) ||| 128
     else (if v = 0 then v ||| 2 else v &&& 253) &&& 127) =
      (if v = 0 then 2 else v &&& 253) := by decide

theorem plp_status_byte_props : ∀ v < 256,
    ((if v = 0 then (2:Nat) else v &&& 253).testBit 1 = true ↔ v = 0) ∧
    ((if v = 0 then (2:Nat) else v &&& 253) < 256) ∧
    (v = 2 → (if v = 0 then (2:Nat) else v &&& 253) = 0) := by decide

theorem plp_status_byte_bits : ∀ v < 256, ∀ j < 8, ¬ (j = 1) →
    (if v = 0 then (2:Nat) else v &&& 253).testBit j = v.testBit j := by decide

/-- C10: the byte v popped by PLP becomes the status register with its
zero-flag bit forced to `v = 0`; every other bit (the negative flag
included) is bit-for-bit the popped byte.  In particular popping the
nonzero byte 0x02, whose zero-flag bit is set, yields status 0, so the
status register is not restored verbatim (src/src/cpu.rs
lines 584-589 and 389-401). -/
theorem plp_zero_flag_forced (st : CPUS) (hwf : ∀ a, st.mem a < 256) :
    ((plp st).status.testBit 1 = true ↔
      st.mem (0x0100 + (st.stack_pointer + 1) % 256) = 0) ∧
    (∀ j, ¬ (j = 1) → (plp st).status.testBit j =
      (st.mem (0x0100 + (st.stack_pointer + 1) % 256)).testBit j) ∧
    (st.mem (0x0100 + (st.stack_pointer + 1) % 256) = 2 → (plp st).status = 0) := by
  have hv : st.mem (0x0100 + (st.stack_pointer + 1) % 256) < 256 := hwf _
  have hred : (plp st).status =
      (if ¬ (st.mem (0x0100 + (st.stack_pointer + 1) % 256) &&& 128 = 0)
       then (if st.mem (0x0100 + (st.stack_pointer + 1) % 256) = 0
             then st.mem (0x0100 + (st.stack_pointer + 1) % 256) ||| 2
             else st.mem (0x0100 + (st.stack_pointer + 1) % 256) &&& 253) ||| 128
       else (if st.mem (0x0100 + (st.stack_pointer + 1) % 256) = 0
             then st.mem (0x0100 + (st.stack_pointer + 1) % 256) ||| 2
             else st.mem (0x0100 + (st.stack_pointer + 1) % 256) &&& 253) &&& 127) := rfl
  rw [hred, plp_status_byte _ hv]
  obtain ⟨hp1, hp2, hp3⟩ := plp_status_byte_props _ hv
  refine ⟨hp1, ?_, hp3⟩
  intro j hj
  rcases Nat.lt_or_ge j 8 with hjl | hjg
  · exact plp_status_byte_bits _ hv j hjl hj
  · have hpow : (256:Nat) ≤ 2 ^ j := by
      calc (256:Nat) = 2 ^ 8 := by norm_num
        _ ≤ 2 ^ j := Nat.pow_le_pow_right (by norm_num) hjg
    rw [Nat.testBit_eq_false_of_lt (lt_of_lt_of_le hp2 hpow),
      Nat.testBit_eq_false_of_lt (lt_of_lt_of_le hv hpow)]

/-- Concrete state used to settle C10: the byte 0x02 (nonzero, with
the zero-flag bit set) sits at the top of the stack. -/
def exC10 : CPUS :=
  { register_a := 0, register_x := 0, register_y := 0, status := 0xFF,
    program_counter := 0x8000, stack_pointer := 0xFC,
    mem := fun a => if a = 0x01FD then 0x02 else 0 }

theorem plp_zero_flag_forced_witness : (plp exC10).status = 0 :=
  (plp_zero_flag_forced exC10 (fun a => by
    show (if a = 0x01FD then (0x02:Nat) else 0) < 256
    split <;> decide)).2.2 (by decide)

/-! ### The remaining instruction handlers, src/src/cpu.rs lines
103-387 and the dispatch arms of `run_with_callback`. -/

/-- Source `and`, src/src/cpu.rs lines 123-129, on the operand byte. -/
def and (st : CPUS) (value : Nat) : CPUS :=
  let st1 := { st with register_a := st.register_a &&& value }
  update_zero_and_negative_flags st1 st1.register_a

/-- Source `asl_accumulator`, src/src/cpu.rs lines 131-137; `value << 1` on a
u8 is `(value <<< 1) % 256`. -/
def asl_accumulator (st : CPUS) : CPUS :=
  let value := st.register_a
  let st1 := setFlg st FlgCodes.CARRY (if value >>> 7 = 0 then 0 else 1)
  let st2 := { st1 with register_a := (value <<< 1) % 256 }
  update_zero_and_negative_flags st2 st2.register_a

/-- Source `asl` (memory form), src/src/cpu.rs lines 139-147. -/
def asl (st : CPUS) (addr : Nat) : CPUS :=
  let value := st.mem addr
  let st1 := setFlg st FlgCodes.CARRY (if value >>> 7 = 0 then 0 else 1)
  let st2 := memWrite st1 addr ((value <<< 1) % 256)
  update_zero_and_negative_flags st2 ((value <<< 1) % 256)

/-- Source `cmp`, src/src/cpu.rs lines 160-166, on the operand byte;
`wrapping_sub` on bytes is `(x + 256 - y) % 256`. -/
def cmp (st : CPUS) (compare_with value : Nat) : CPUS :=
  let st1 := setFlg st FlgCodes.CARRY (if value ≤ compare_with then 1 else 0)
  update_zero_and_negative_flags st1 ((compare_with + 256 - value) % 256)

/-- Source `dec`, src/src/cpu.rs lines 168-176; `wrapping_sub(1)` on a byte
is `(value + 255) % 256`. -/
def dec (st : CPUS) (addr : Nat) : CPUS :=
  let result := (st.mem addr + 255) % 256
  let st1 := memWrite st addr result
  update_zero_and_negative_flags st1 result

/-- Source `dex`, src/src/cpu.rs lines 178-183. -/
def dex (st : CPUS) : CPUS :=
  let result := (st.register_x + 255) % 256
  let st1 := { st with register_x := result }
  update_zero_and_negative_flags st1 result

/-- Source `dey`, src/src/cpu.rs lines 184-189. -/
def dey (st : CPUS) : CPUS :=
  let result := (st.register_y + 255) % 256
  let st1 := { st with register_y := result }
  update_zero_and_negative_flags st1 result

/-- Source `inc`, src/src/cpu.rs lines 191-199. -/
def inc (st : CPUS) (addr : Nat) : CPUS :=
  let result := (st.mem addr + 1) % 256
  let st1 := memWrite st addr result
  update_zero_and_negative_flags st1 result

/-- Source `inx`, src/src/cpu.rs lines 201-204. -/
def inx (st : CPUS) : CPUS :=
  let st1 := { st with register_x := (st.register_x + 1) % 256 }
  update_zero_and_negative_flags st1 st1.register_x

/-- Source `iny`, src/src/cpu.rs lines 205-208. -/
def iny (st : CPUS) : CPUS :=
  let st1 := { st with register_y := (st.register_y + 1) % 256 }
  update_zero_and_negative_flags st1 st1.register_y

/-- Source `eor`, src/src/cpu.rs lines 210-218, on the operand byte. -/
def eor (st : CPUS) (value : Nat) : CPUS :=
  let result := st.register_a ^^^ value
  let st1 := { st with register_a := result }
  update_zero_and_negative_flags st1 result

/-- Source `rol_accumulator`, src/src/cpu.rs lines 238-245. -/
def rol_accumulator (st : CPUS) : CPUS :=
  let value := st.register_a
  let old_carry := getFlg st FlgCodes.CARRY
  let st1 := setFlg st FlgCodes.CARRY (if value >>> 7 = 0 then 0 else 1)
  let st2 := { st1 with register_a := ((value <<< 1) % 256) ||| old_carry }
  update_zero_and_negative_flags st2 st2.register_a

/-- Source `rol` (memory form), src/src/cpu.rs lines 247-256. -/
def rol (st : CPUS) (addr : Nat) : CPUS :=
  let value := st.mem addr
  let old_carry := getFlg st FlgCodes.CARRY
  let st1 := setFlg st FlgCodes.CARRY (if value >>> 7 = 0 then 0 else 1)
  let st2 := memWrite st1 addr (((value <<< 1) % 256) ||| old_carry)
  update_zero_and_negative_flags st2 (((value <<< 1) % 256) ||| old_carry)

/-- Source `ora`, src/src/cpu.rs lines 299-307, on the operand byte. -/
def ora (st : CPUS) (value : Nat) : CPUS :=
  let result := st.register_a ||| value
  let st1 := { st with register_a := result }
  update_zero_and_negative_flags st1 result

/-- Source `ld`, src/src/cpu.rs lines 309-320, on the operand byte. -/
def ld (st : CPUS) (kind : REGISTER) (value : Nat) : CPUS :=
  let st1 :=
    match kind with
    | .REGISTER_A => { st with register_a := value }
    | .REGISTER_X => { st with register_x := value }
    | .REGISTER_Y => { st with register_y := value }
  update_zero_and_negative_flags st1 value

/-- Source `tax`, src/src/cpu.rs lines 322-325. -/
def tax (st : CPUS) : CPUS :=
  let st1 := { st with register_x := st.register_a }
  update_zero_and_negative_flags st1 st1.register_x

/-- Source `txa`, src/src/cpu.rs lines 326-329. -/
def txa (st : CPUS) : CPUS :=
  let st1 := { st with register_a := st.register_x }
  update_zero_and_negative_flags st1 st1.register_a

/-- Source `tay`, src/src/cpu.rs lines 330-333. -/
def tay (st : CPUS) : CPUS :=
  let st1 := { st with register_y := st.register_a }
  update_zero_and_negative_flags st1 st1.register_y

/-- Source `tya`, src/src/cpu.rs lines 334-337. -/
def tya (st : CPUS) : CPUS :=
  let st1 := { st with register_a := st.register_y }
  update_zero_and_negative_flags st1 st1.register_a

/-- Source `tsx`, src/src/cpu.rs lines 338-341. -/
def tsx (st : CPUS) : CPUS :=
  let st1 := { st with register_x := st.stack_pointer }
  update_zero_and_negative_flags st1 st1.register_x

/-- Source `txs`, src/src/cpu.rs lines 342-344. -/
def txs (st : CPUS) : CPUS :=
  { st with stack_pointer := st.register_x }

/-- Source `store`, src/src/cpu.rs lines 346-353. -/
def store (st : CPUS) (kind : REGISTER) (addr : Nat) : CPUS :=
  match kind with
  | .REGISTER_A => memWrite st addr st.register_a
  | .REGISTER_X => memWrite st addr st.register_x
  | .REGISTER_Y => memWrite st addr st.register_y

/-- Dispatch arm for opcode 0x68 (PLA), src/src/cpu.rs lines 579-583. -/
def pla (st : CPUS) : CPUS :=
  let p := stack_pop st
  let st1 := { p.1 with register_a := p.2 }
  update_zero_and_negative_flags st1 p.2

/-- Dispatch arm for opcode 0x4C (JMP absolute), src/src/cpu.rs
lines 592-595. -/
def jmp_absolute (st : CPUS) : CPUS :=
  { st with program_counter := mem_read_u16 st st.program_counter }

/-- Dispatch arm for opcode 0x20 (JSR), src/src/cpu.rs lines 611-615:
push `program_counter + 2 - 1`, then jump to the word at the program
counter. -/
def jsr (st : CPUS) : CPUS :=
  let st1 := stack_push_u16 st ((st.program_counter + 2 - 1) % 65536)
  { st1 with program_counter := mem_read_u16 st1 st1.program_counter }

/-- Dispatch arm for opcode 0x60 (RTS), src/src/cpu.rs lines 617-619. -/
def rts (st : CPUS) : CPUS :=
  let p := stack_pop_u16 st
  { p.1 with program_counter := (p.2 + 1) % 65536 }

/-- Dispatch arm for opcode 0x40 (RTI), src/src/cpu.rs lines 621-624:
pop the status byte, then pop the program counter. -/
def rti (st : CPUS) : CPUS :=
  let p := stack_pop st
  let st1 := { p.1 with status := p.2 }
  let q := stack_pop_u16 st1
  { q.1 with program_counter := q.2 }

/-! ### Fatal conditions and the dispatch loop -/

/-- The two fatal conditions of the core.  The decode failure is the
bare `opcodes.get(&code).unwrap()` at src/src/cpu.rs line 480, whose
panic is the generic unwrap message and names no byte — so that error
carries no payload.  The address-resolution failure is the panic at
lines 719-721, which formats the offending mode into its message — so
that error carries the mode. -/
inductive CpuError where
  | unwrapNone
  | unsupportedMode (mode : AddressingMode)

/-- Source `get_operand_address`, src/src/cpu.rs lines 673-723.  Zero-page
index arithmetic wraps mod 256, absolute index arithmetic mod 65536;
the no-addressing mode fails (the source panics there). -/
def get_operand_address (st : CPUS) (mode : AddressingMode) : Except CpuError Nat :=
  match mode with
  | .Immediate => .ok st.program_counter
  | .ZeroPage => .ok (st.mem st.program_counter)
  | .Absolute => .ok (mem_read_u16 st st.program_counter)
  | .ZeroPage_X => .ok ((st.mem st.program_counter + st.register_x) % 256)
  | .ZeroPage_Y => .ok ((st.mem st.program_counter + st.register_y) % 256)
  | .Absolute_X => .ok ((mem_read_u16 st st.program_counter + st.register_x) % 65536)
  | .Absolute_Y => .ok ((mem_read_u16 st st.program_counter + st.register_y) % 65536)
  | .Indirect_X =>
      let base := st.mem st.program_counter
      let ptr := (base + st.register_x) % 256
      let lo := st.mem ptr
      let hi := st.mem ((ptr + 1) % 256)
      .ok ((hi <<< 8) ||| lo)
  | .Indirect_Y =>
      let base := st.mem st.program_counter
      let lo := st.mem base
      let hi := st.mem ((base + 1) % 256)
      let deref_base := (hi <<< 8) ||| lo
      .ok ((deref_base + st.register_y) % 65536)
  | .NoneAddressing => .error (.unsupportedMode .NoneAddressing)

/-- One tag per dispatch arm of `run_with_callback`, src/src/cpu.rs
lines 482-665 (accumulator and memory forms of the shifts are
distinct arms, as in the source's match). -/
inductive Mnemonic where
  | LDA | LDX | LDY | STA | STX | STY
  | TAX | TXA | TAY | TYA | TSX | TXS
  | ADC | AND | ASL_ACC | ASL | BIT
  | CMP | CPX | CPY
  | DEC | DEX | DEY | EOR | INC | INX | INY
  | LSR_ACC | LSR | ORA
  | ROL_ACC | ROL | ROR_ACC | ROR | SBC
  | PHA | PHP | PLA | PLP
  | JMP_ABS | JMP_IND | JSR | RTS | RTI
  | BCC | BCS | BEQ | BMI | BNE | BPL | BVC | BVS
  | CLC | CLD | CLI | CLV | SEC | SED | SEI
  | BRK | NOP

/-- Opcode descriptor: addressing mode and instruction byte length
(spec section 3: "maps a byte to {addressing mode tag, byte length
including opcode, base cycle count}"; the cycle count is never read by
the dispatch loop and is omitted). -/
structure OpCode where
  mnemonic : Mnemonic
  mode : AddressingMode
  len : Nat

/-- Modelled from the spec: the static opcode descriptor table
(`opcodes::OPCODES_MAP`, from the repository's opcodes.rs, which is
not under src/).  Spec section 2 describes it as "a static mapping
from byte value to {mnemonic, addressing mode, instruction byte
length, base cycle cost}.  Pure data, consulted, never mutated", and
section 4.4 has the dispatch loop execute exactly the handled opcode
set, so the table is modelled as holding exactly the opcodes that the
dispatch match of src/src/cpu.rs lines 482-665 routes, with the
standard mode and length of each (note: the dispatch routes 0xAB, not
the usual 0xAC, to LDY, and the table follows the dispatch). -/
def opcodeTable (code : Nat) : Option OpCode :=
  match code with
  | 0xA9 => some ⟨.LDA, .Immediate, 2⟩
  | 0xA5 => some ⟨.LDA, .ZeroPage, 2⟩
  | 0xB5 => some ⟨.LDA, .ZeroPage_X, 2⟩
  | 0xAD => some ⟨.LDA, .Absolute, 3⟩
  | 0xBD => some ⟨.LDA, .Absolute_X, 3⟩
  | 0xB9 => some ⟨.LDA, .Absolute_Y, 3⟩
  | 0xA1 => some ⟨.LDA, .Indirect_X, 2⟩
  | 0xB1 => some ⟨.LDA, .Indirect_Y, 2⟩
  | 0xA2 => some ⟨.LDX, .Immediate, 2⟩
  | 0xA6 => some ⟨.LDX, .ZeroPage, 2⟩
  | 0xB6 => some ⟨.LDX, .ZeroPage_Y, 2⟩
  | 0xAE => some ⟨.LDX, .Absolute, 3⟩
  | 0xBE => some ⟨.LDX, .Absolute_Y, 3⟩
  | 0xA0 => some ⟨.LDY, .Immediate, 2⟩
  | 0xA4 => some ⟨.LDY, .ZeroPage, 2⟩
  | 0xB4 => some ⟨.LDY, .ZeroPage_X, 2⟩
  | 0xAB => some ⟨.LDY, .Absolute, 3⟩
  | 0xBC => some ⟨.LDY, .Absolute_X, 3⟩
  | 0x85 => some ⟨.STA, .ZeroPage, 2⟩
  | 0x95 => some ⟨.STA, .ZeroPage_X, 2⟩
  | 0x8D => some ⟨.STA, .Absolute, 3⟩
  | 0x9D => some ⟨.STA, .Absolute_X, 3⟩
  | 0x99 => some ⟨.STA, .Absolute_Y, 3⟩
  | 0x81 => some ⟨.STA, .Indirect_X, 2⟩
  | 0x91 => some ⟨.STA, .Indirect_Y, 2⟩
  | 0x86 => some ⟨.STX, .ZeroPage, 2⟩
  | 0x96 => some ⟨.STX, .ZeroPage_Y, 2⟩
  | 0x8E => some ⟨.STX, .Absolute, 3⟩
  | 0x84 => some ⟨.STY, .ZeroPage, 2⟩
  | 0x94 => some ⟨.STY, .ZeroPage_X, 2⟩
  | 0x8C => some ⟨.STY, .Absolute, 3⟩
  | 0xAA => some ⟨.TAX, .NoneAddressing, 1⟩
  | 0x8A => some ⟨.TXA, .NoneAddressing, 1⟩
  | 0xA8 => some ⟨.TAY, .NoneAddressing, 1⟩
  | 0x98 => some ⟨.TYA, .NoneAddressing, 1⟩
  | 0xBA => some ⟨.TSX, .NoneAddressing, 1⟩
  | 0x9A => some ⟨.TXS, .NoneAddressing, 1⟩
  | 0x69 => some ⟨.ADC, .Immediate, 2⟩
  | 0x65 => some ⟨.ADC, .ZeroPage, 2⟩
  | 0x75 => some ⟨.ADC, .ZeroPage_X, 2⟩
  | 0x6D => some ⟨.ADC, .Absolute, 3⟩
  | 0x7D => some ⟨.ADC, .Absolute_X, 3⟩
  | 0x79 => some ⟨.ADC, .Absolute_Y, 3⟩
  | 0x61 => some ⟨.ADC, .Indirect_X, 2⟩
  | 0x71 => some ⟨.ADC, .Indirect_Y, 2⟩
  | 0x29 => some ⟨.AND, .Immediate, 2⟩
  | 0x25 => some ⟨.AND, .ZeroPage, 2⟩
  | 0x35 => some ⟨.AND, .ZeroPage_X, 2⟩
  | 0x2D => some ⟨.AND, .Absolute, 3⟩
  | 0x3D => some ⟨.AND, .Absolute_X, 3⟩
  | 0x39 => some ⟨.AND, .Absolute_Y, 3⟩
  | 0x21 => some ⟨.AND, .Indirect_X, 2⟩
  | 0x31 => some ⟨.AND, .Indirect_Y, 2⟩
  | 0x0A => some ⟨.ASL_ACC, .NoneAddressing, 1⟩
  | 0x06 => some ⟨.ASL, .ZeroPage, 2⟩
  | 0x16 => some ⟨.ASL, .ZeroPage_X, 2⟩
  | 0x0E => some ⟨.ASL, .Absolute, 3⟩
  | 0x1E => some ⟨.ASL, .Absolute_X, 3⟩
  | 0x24 => some ⟨.BIT, .ZeroPage, 2⟩
  | 0x2C => some ⟨.BIT, .Absolute, 3⟩
  | 0xC9 => some ⟨.CMP, .Immediate, 2⟩
  | 0xC5 => some ⟨.CMP, .ZeroPage, 2⟩
  | 0xD5 => some ⟨.CMP, .ZeroPage_X, 2⟩
  | 0xCD => some ⟨.CMP, .Absolute, 3⟩
  | 0xDD => some ⟨.CMP, .Absolute_X, 3⟩
  | 0xD9 => some ⟨.CMP, .Absolute_Y, 3⟩
  | 0xC1 => some ⟨.CMP, .Indirect_X, 2⟩
  | 0xD1 => some ⟨.CMP, .Indirect_Y, 2⟩
  | 0xE0 => some ⟨.CPX, .Immediate, 2⟩
  | 0xE4 => some ⟨.CPX, .ZeroPage, 2⟩
  | 0xEC => some ⟨.CPX, .Absolute, 3⟩
  | 0xC0 => some ⟨.CPY, .Immediate, 2⟩
  | 0xC4 => some ⟨.CPY, .ZeroPage, 2⟩
  | 0xCC => some ⟨.CPY, .Absolute, 3⟩
  | 0xC6 => some ⟨.DEC, .ZeroPage, 2⟩
  | 0xD6 => some ⟨.DEC, .ZeroPage_X, 2⟩
  | 0xCE => some ⟨.DEC, .Absolute, 3⟩
  | 0xDE => some ⟨.DEC, .Absolute_X, 3⟩
  | 0xCA => some ⟨.DEX, .NoneAddressing, 1⟩
  | 0x88 => some ⟨.DEY, .NoneAddressing, 1⟩
  | 0x49 => some ⟨.EOR, .Immediate, 2⟩
  | 0x45 => some ⟨.EOR, .ZeroPage, 2⟩
  | 0x55 => some ⟨.EOR, .ZeroPage_X, 2⟩
  | 0x4D => some ⟨.EOR, .Absolute, 3⟩
  | 0x5D => some ⟨.EOR, .Absolute_X, 3⟩
  | 0x59 => some ⟨.EOR, .Absolute_Y, 3⟩
  | 0x41 => some ⟨.EOR, .Indirect_X, 2⟩
  | 0x51 => some ⟨.EOR, .Indirect_Y, 2⟩
  | 0xE6 => some ⟨.INC, .ZeroPage, 2⟩
  | 0xF6 => some ⟨.INC, .ZeroPage_X, 2⟩
  | 0xEE => some ⟨.INC, .Absolute, 3⟩
  | 0xFE => some ⟨.INC, .Absolute_X, 3⟩
  | 0xE8 => some ⟨.INX, .NoneAddressing, 1⟩
  | 0xC8 => some ⟨.INY, .NoneAddressing, 1⟩
  | 0x4A => some ⟨.LSR_ACC, .NoneAddressing, 1⟩
  | 0x46 => some ⟨.LSR, .ZeroPage, 2⟩
  | 0x56 => some ⟨.LSR, .ZeroPage_X, 2⟩
  | 0x4E => some ⟨.LSR, .Absolute, 3⟩
  | 0x5E => some ⟨.LSR, .Absolute_X, 3⟩
  | 0x09 => some ⟨.ORA, .Immediate, 2⟩
  | 0x05 => some ⟨.ORA, .ZeroPage, 2⟩
  | 0x15 => some ⟨.ORA, .ZeroPage_X, 2⟩
  | 0x0D => some ⟨.ORA, .Absolute, 3⟩
  | 0x1D => some ⟨.ORA, .Absolute_X, 3⟩
  | 0x19 => some ⟨.ORA, .Absolute_Y, 3⟩
  | 0x01 => some ⟨.ORA, .Indirect_X, 2⟩
  | 0x11 => some ⟨.ORA, .Indirect_Y, 2⟩
  | 0x2A => some ⟨.ROL_ACC, .NoneAddressing, 1⟩
  | 0x26 => some ⟨.ROL, .ZeroPage, 2⟩
  | 0x36 => some ⟨.ROL, .ZeroPage_X, 2⟩
  | 0x2E => some ⟨.ROL, .Absolute, 3⟩
  | 0x3E => some ⟨.ROL, .Absolute_X, 3⟩
  | 0x6A => some ⟨.ROR_ACC, .NoneAddressing, 1⟩
  | 0x66 => some ⟨.ROR, .ZeroPage, 2⟩
  | 0x76 => some ⟨.ROR, .ZeroPage_X, 2⟩
  | 0x6E => some ⟨.ROR, .Absolute, 3⟩
  | 0x7E => some ⟨.ROR, .Absolute_X, 3⟩
  | 0xE9 => some ⟨.SBC, .Immediate, 2⟩
  | 0xE5 => some ⟨.SBC, .ZeroPage, 2⟩
  | 0xF5 => some ⟨.SBC, .ZeroPage_X, 2⟩
  | 0xED => some ⟨.SBC, .Absolute, 3⟩
  | 0xFD => some ⟨.SBC, .Absolute_X, 3⟩
  | 0xF9 => some ⟨.SBC, .Absolute_Y, 3⟩
  | 0xE1 => some ⟨.SBC, .Indirect_X, 2⟩
  | 0xF1 => some ⟨.SBC, .Indirect_Y, 2⟩
  | 0x48 => some ⟨.PHA, .NoneAddressing, 1⟩
  | 0x08 => some ⟨.PHP, .NoneAddressing, 1⟩
  | 0x68 => some ⟨.PLA, .NoneAddressing, 1⟩
  | 0x28 => some ⟨.PLP, .NoneAddressing, 1⟩
  | 0x4C => some ⟨.JMP_ABS, .NoneAddressing, 3⟩
  | 0x6C => some ⟨.JMP_IND, .NoneAddressing, 3⟩
  | 0x20 => some ⟨.JSR, .NoneAddressing, 3⟩
  | 0x60 => some ⟨.RTS, .NoneAddressing, 1⟩
  | 0x40 => some ⟨.RTI, .NoneAddressing, 1⟩
  | 0x90 => some ⟨.BCC, .NoneAddressing, 2⟩
  | 0xB0 => some ⟨.BCS, .NoneAddressing, 2⟩
  | 0xF0 => some ⟨.BEQ, .NoneAddressing, 2⟩
  | 0x30 => some ⟨.BMI, .NoneAddressing, 2⟩
  | 0xD0 => some ⟨.BNE, .NoneAddressing, 2⟩
  | 0x10 => some ⟨.BPL, .NoneAddressing, 2⟩
  | 0x50 => some ⟨.BVC, .NoneAddressing, 2⟩
  | 0x70 => some ⟨.BVS, .NoneAddressing, 2⟩
  | 0x18 => some ⟨.CLC, .NoneAddressing, 1⟩
  | 0xD8 => some ⟨.CLD, .NoneAddressing, 1⟩
  | 0x58 => some ⟨.CLI, .NoneAddressing, 1⟩
  | 0xB8 => some ⟨.CLV, .NoneAddressing, 1⟩
  | 0x38 => some ⟨.SEC, .NoneAddressing, 1⟩
  | 0xF8 => some ⟨.SED, .NoneAddressing, 1⟩
  | 0x78 => some ⟨.SEI, .NoneAddressing, 1⟩
  | 0x00 => some ⟨.BRK, .NoneAddressing, 1⟩
  | 0xEA => some ⟨.NOP, .NoneAddressing, 1⟩
  | _ => none

/-- Resolve the operand address for a handler that reads or writes
memory, then run its pure body — the `get_operand_address` /
`mem_read` prologue shared by the addressed handlers. -/
def withAddr (st : CPUS) (mode : AddressingMode) (f : CPUS → Nat → CPUS) :
    Except CpuError (Option CPUS) :=
  (get_operand_address st mode).map (fun addr => some (f st addr))

/-- One dispatch arm of `run_with_callback`, src/src/cpu.rs
lines 482-665, as a function of the decoded descriptor: `Except` for
the two fatal conditions, `none` for the halt opcode BRK (the arm
that returns from the loop). -/
def execInstr (m : Mnemonic) (mode : AddressingMode) (st : CPUS) :
    Except CpuError (Option CPUS) :=
  match m with
  | .LDA => withAddr st mode (fun st addr => ld st REGISTER.REGISTER_A (st.mem addr))
  | .LDX => withAddr st mode (fun st addr => ld st REGISTER.REGISTER_X (st.mem addr))
  | .LDY => withAddr st mode (fun st addr => ld st REGISTER.REGISTER_Y (st.mem addr))
  | .STA => withAddr st mode (fun st addr => store st REGISTER.REGISTER_A addr)
  | .STX => withAddr st mode (fun st addr => store st REGISTER.REGISTER_X addr)
  | .STY => withAddr st mode (fun st addr => store st REGISTER.REGISTER_Y addr)
  | .TAX => .ok (some (tax st))
  | .TXA => .ok (some (txa st))
  | .TAY => .ok (some (tay st))
  | .TYA => .ok (some (tya st))
  | .TSX => .ok (some (tsx st))
  | .TXS => .ok (some (txs st))
  | .ADC => withAddr st mode (fun st addr => adc st (st.mem addr))
  | .AND => withAddr st mode (fun st addr => and st (st.mem addr))
  | .ASL_ACC => .ok (some (asl_accumulator st))
  | .ASL => withAddr st mode asl
  | .BIT => withAddr st mode (fun st addr => bit st (st.mem addr))
  | .CMP => withAddr st mode (fun st addr => cmp st st.register_a (st.mem addr))
  | .CPX => withAddr st mode (fun st addr => cmp st st.register_x (st.mem addr))
  | .CPY => withAddr st mode (fun st addr => cmp st st.register_y (st.mem addr))
  | .DEC => withAddr st mode dec
  | .DEX => .ok (some (dex st))
  | .DEY => .ok (some (dey st))
  | .EOR => withAddr st mode (fun st addr => eor st (st.mem addr))
  | .INC => withAddr st mode inc
  | .INX => .ok (some (inx st))
  | .INY => .ok (some (iny st))
  | .LSR_ACC => .ok (some (lsr_accumulator st))
  | .LSR => withAddr st mode lsr
  | .ORA => withAddr st mode (fun st addr => ora st (st.mem addr))
  | .ROL_ACC => .ok (some (rol_accumulator st))
  | .ROL => withAddr st mode rol
  | .ROR_ACC => .ok (some (ror_accumulator st))
  | .ROR => withAddr st mode ror
  | .SBC => withAddr st mode (fun st addr => sbc st (st.mem addr))
  | .PHA => .ok (some (stack_push st st.register_a))
  | .PHP => .ok (some (stack_push st st.status))
  | .PLA => .ok (some (pla st))
  | .PLP => .ok (some (plp st))
  | .JMP_ABS => .ok (some (jmp_absolute st))
  | .JMP_IND => .ok (some (jmp_indirect st))
  | .JSR => .ok (some (jsr st))
  | .RTS => .ok (some (rts st))
  | .RTI => .ok (some (rti st))
  | .BCC => .ok (some (branch st (getFlg st FlgCodes.CARRY == 0)))
  | .BCS => .ok (some (branch st (getFlg st FlgCodes.CARRY == 1)))
  | .BEQ => .ok (some (branch st (getFlg st FlgCodes.ZERO == 1)))
  | .BMI => .ok (some (branch st (getFlg st FlgCodes.NEGATIV == 1)))
  | .BNE => .ok (some (branch st (getFlg st FlgCodes.ZERO == 0)))
  | .BPL => .ok (some (branch st (getFlg st FlgCodes.NEGATIV == 0)))
  | .BVC => .ok (some (branch st (getFlg st FlgCodes.OVERFLOW == 0)))
  | .BVS => .ok (some (branch st (getFlg st FlgCodes.OVERFLOW == 1)))
  | .CLC => .ok (some (setFlg st FlgCodes.CARRY 0))
  | .CLD => .ok (some (setFlg st FlgCodes.DECIMAL_MODE 0))
  | .CLI => .ok (some (setFlg st FlgCodes.INTERRUPT_DISABLE 0))
  | .CLV => .ok (some (setFlg st FlgCodes.OVERFLOW 0))
  | .SEC => .ok (some (setFlg st FlgCodes.CARRY 1))
  | .SED => .ok (some (setFlg st FlgCodes.DECIMAL_MODE 1))
  | .SEI => .ok (some (setFlg st FlgCodes.INTERRUPT_DISABLE 1))
  | .BRK => .ok none
  | .NOP => .ok (some st)

/-- The body of one iteration of `run_with_callback` after the
descriptor lookup: execute the arm, then advance the program counter
by `len - 1` when the handler did not redirect it
(src/src/cpu.rs lines 666-668). -/
def stepExec (op : OpCode) (st1 : CPUS) (program_counter_state : Nat) :
    Except CpuError (Option CPUS) :=
  match execInstr op.mnemonic op.mode st1 with
  | .error e => .error e
  | .ok none => .ok none
  | .ok (some st2) =>
      .ok (some (if program_counter_state = st2.program_counter
        then { st2 with
                program_counter := (st2.program_counter + (op.len - 1)) % 65536 }
        else st2))

/-- One iteration of `run_with_callback`, src/src/cpu.rs
lines 476-670: fetch the opcode byte, advance the program counter,
decode through the descriptor table (the bare `unwrap` fails fatally
when the byte has no descriptor, and its panic names no byte, hence
the payload-free error), execute, advance. -/
def step (st : CPUS) : Except CpuError (Option CPUS) :=
  let code := st.mem st.program_counter
  let st1 := { st with program_counter := (st.program_counter + 1) % 65536 }
  let program_counter_state := st1.program_counter
  match opcodeTable code with
  | none => .error .unwrapNone
  | some op => stepExec op st1 program_counter_state

/-- Whether a dispatch arm resolves an operand address
(the `withAddr` arms of `execInstr`). -/
def needsAddress : Mnemonic → Bool
  | .LDA | .LDX | .LDY | .STA | .STX | .STY | .ADC | .AND | .ASL | .BIT
  | .CMP | .CPX | .CPY | .DEC | .EOR | .INC | .LSR | .ORA | .ROL | .ROR
  | .SBC => true
  | _ => false

theorem get_operand_address_ok (st : CPUS) (mode : AddressingMode)
    (h : ¬ (mode = AddressingMode.NoneAddressing)) :
    ∃ a, get_operand_address st mode = Except.ok a := by
  cases mode
  case NoneAddressing => exact absurd rfl h
  all_goals exact ⟨_, rfl⟩

theorem withAddr_ok (st : CPUS) (mode : AddressingMode) (f : CPUS → Nat → CPUS)
    (h : ¬ (mode = AddressingMode.NoneAddressing)) :
    ∃ r, withAddr st mode f = Except.ok r := by
  obtain ⟨a, ha⟩ := get_operand_address_ok st mode h
  refine ⟨some (f st a), ?_⟩
  unfold withAddr
  rw [ha]
  rfl

theorem execInstr_ok (m : Mnemonic) (mode : AddressingMode) (st : CPUS)
    (h : needsAddress m = true → ¬ (mode = AddressingMode.NoneAddressing)) :
    ∃ r, execInstr m mode st = Except.ok r := by
  cases m <;>
    first
      | exact ⟨_, rfl⟩
      | (obtain ⟨a, ha⟩ := get_operand_address_ok st mode (h rfl)
         exact ⟨_, by
           simp only [execInstr, withAddr, ha, Except.map]
           rfl⟩)

theorem stepExec_ok (op : OpCode) (st1 : CPUS) (pcs : Nat)
    (h : ∃ r, execInstr op.mnemonic op.mode st1 = Except.ok r) :
    ∃ r, stepExec op st1 pcs = Except.ok r := by
  obtain ⟨r, hr⟩ := h
  unfold stepExec
  rw [hr]
  cases r
  · exact ⟨none, rfl⟩
  · exact ⟨_, rfl⟩

/-- Decidable scan of the descriptor table: every descriptor whose arm
resolves an address carries a mode other than no-addressing. -/
def tableModeOk (code : Nat) : Bool :=
  match opcodeTable code with
  | none => true
  | some op =>
      (!(needsAddress op.mnemonic)) ||
        decide (¬ (op.mode = AddressingMode.NoneAddressing))

theorem tableModeOk_chunk0 : ∀ c < 16, tableModeOk (0 + c) = true := by decide

theorem tableModeOk_chunk1 : ∀ c < 16, tableModeOk (16 + c) = true := by decide

theorem tableModeOk_chunk2 : ∀ c < 16, tableModeOk (32 + c) = true := by decide

theorem tableModeOk_chunk3 : ∀ c < 16, tableModeOk (48 + c) = true := by decide

theorem tableModeOk_chunk4 : ∀ c < 16, tableModeOk (64 + c) = true := by decide

theorem tableModeOk_chunk5 : ∀ c < 16, tableModeOk (80 + c) = true := by decide

theorem tableModeOk_chunk6 : ∀ c < 16, tableModeOk (96 + c) = true := by decide

theorem tableModeOk_chunk7 : ∀ c < 16, tableModeOk (112 + c) = true := by decide

theorem tableModeOk_chunk8 : ∀ c < 16, tableModeOk (128 + c) = true := by decide

theorem tableModeOk_chunk9 : ∀ c < 16, tableModeOk (144 + c) = true := by decide

theorem tableModeOk_chunk10 : ∀ c < 16, tableModeOk (160 + c) = true := by decide

theorem tableModeOk_chunk11 : ∀ c < 16, tableModeOk (176 + c) = true := by decide

theorem tableModeOk_chunk12 : ∀ c < 16, tableModeOk (192 + c) = true := by decide

theorem tableModeOk_chunk13 : ∀ c < 16, tableModeOk (208 + c) = true := by decide

theorem tableModeOk_chunk14 : ∀ c < 16, tableModeOk (224 + c) = true := by decide

theorem tableModeOk_chunk15 : ∀ c < 16, tableModeOk (240 + c) = true := by decide

theorem tableModeOk_all : ∀ code < 256, tableModeOk code = true := by
  intro code hc
  obtain ⟨q, r, hq, hr, rfl⟩ : ∃ q r, q < 16 ∧ r < 16 ∧ code = 16 * q + r :=
    ⟨code / 16, code % 16, by omega, by omega, by omega⟩
  interval_cases q
  · exact tableModeOk_chunk0 r hr
  · exact tableModeOk_chunk1 r hr
  · exact tableModeOk_chunk2 r hr
  · exact tableModeOk_chunk3 r hr
  · exact tableModeOk_chunk4 r hr
  · exact tableModeOk_chunk5 r hr
  · exact tableModeOk_chunk6 r hr
  · exact tableModeOk_chunk7 r hr
  · exact tableModeOk_chunk8 r hr
  · exact tableModeOk_chunk9 r hr
  · exact tableModeOk_chunk10 r hr
  · exact tableModeOk_chunk11 r hr
  · exact tableModeOk_chunk12 r hr
  · exact tableModeOk_chunk13 r hr
  · exact tableModeOk_chunk14 r hr
  · exact tableModeOk_chunk15 r hr

theorem table_mode_of_some (code : Nat) (hc : code < 256) (op : OpCode)
    (h : opcodeTable code = some op) :
    needsAddress op.mnemonic = true → ¬ (op.mode = AddressingMode.NoneAddressing) := by
  intro hn
  have h3 := tableModeOk_all code hc
  unfold tableModeOk at h3
  rw [h] at h3
  have h4 : ((!(needsAddress op.mnemonic)) ||
      decide (¬ (op.mode = AddressingMode.NoneAddressing))) = true := h3
  rw [hn] at h4
  simpa using h4

/-- C9 (amended): the dispatch step fails exactly when the fetched
opcode byte has no descriptor, but then through the bare unwrap,
whose failure identifies no byte; every table opcode executes without
a fatal condition; address resolution fails exactly on the
no-addressing mode, and that failure does identify the mode
(src/src/cpu.rs lines 475-481, 662-664 and 719-721, against the
spec-modelled descriptor table). -/
theorem step_two_fatal_conditions (st : CPUS) (hwf : ∀ a, st.mem a < 256) :
    (opcodeTable (st.mem st.program_counter) = none →
      step st = Except.error CpuError.unwrapNone) ∧
    (∀ op, opcodeTable (st.mem st.program_counter) = some op →
      ∃ r, step st = Except.ok r) ∧
    get_operand_address st AddressingMode.NoneAddressing =
      Except.error (CpuError.unsupportedMode AddressingMode.NoneAddressing) ∧
    (∀ mode, ¬ (mode = AddressingMode.NoneAddressing) →
      ∃ a, get_operand_address st mode = Except.ok a) := by
  refine ⟨?_, ?_, rfl, fun mode h => get_operand_address_ok st mode h⟩
  · intro h
    unfold step
    dsimp only
    rw [h]
  · intro op h
    have hm := table_mode_of_some _ (hwf st.program_counter) op h
    have hok := execInstr_ok op.mnemonic op.mode
      { st with program_counter := (st.program_counter + 1) % 65536 } hm
    have hstep : step st = stepExec op
        { st with program_counter := (st.program_counter + 1) % 65536 }
        ((st.program_counter + 1) % 65536) := by
      unfold step
      dsimp only
      rw [h]
    rw [hstep]
    exact stepExec_ok op _ _ hok

/-- Concrete state used to settle C9: memory filled with the NOP
opcode 0xEA. -/
def exC9 : CPUS :=
  { register_a := 0, register_x := 0, register_y := 0, status := 0,
    program_counter := 0x8000, stack_pointer := 0xFD, mem := fun _ => 0xEA }

/-- Concrete state whose fetched opcode byte is 0x02, which has no
descriptor. -/
def exC9b : CPUS :=
  { register_a := 0, register_x := 0, register_y := 0, status := 0,
    program_counter := 0x8000, stack_pointer := 0xFD, mem := fun _ => 0x02 }

/-- Concrete state whose fetched opcode byte is 0x03, which has no
descriptor. -/
def exC9c : CPUS :=
  { register_a := 0, register_x := 0, register_y := 0, status := 0,
    program_counter := 0x8000, stack_pointer := 0xFD, mem := fun _ => 0x03 }

/-- C9 counterexample: the claim requires the unknown-opcode
termination to carry a diagnostic identifying the offending byte, but
that path is the bare `unwrap` of src/src/cpu.rs line 480 — fetching
the opcode byte 0x02 and fetching the different opcode byte 0x03
terminate with the very same error value, so the failure identifies
no byte. -/
theorem step_unknown_opcode_anonymous :
    step exC9b = Except.error CpuError.unwrapNone ∧
    step exC9c = Except.error CpuError.unwrapNone ∧
    ¬ (exC9b.mem exC9b.program_counter = exC9c.mem exC9c.program_counter) :=
  ⟨rfl, rfl, by decide⟩

theorem step_two_fatal_conditions_witness :
    get_operand_address exC9 AddressingMode.NoneAddressing =
      Except.error (CpuError.unsupportedMode AddressingMode.NoneAddressing) :=
  (step_two_fatal_conditions exC9 (fun a => by
    show (0xEA:Nat) < 256
    decide)).2.2.1

end NesCpu
